import Mathlib

/-!
# Verification of the content-scraper traversal scheduler and asset downloader

Shallow embedding of the repository's core components:

* `NavigationCrawler` (`core/navigation_crawler.js`): level classification of
  URLs, per-level admission control, level-3 per-category sampling, and the
  priority ordering of the pending frontier.
* `EnhancedImageDownloader` (`utils/image_downloader_enhanced.js`): the
  content-addressable image downloader with its hash registry
  (`hashToPath` / `urlToHash` / `urlToPath`), duplicate detection, size limits,
  batch driver and manifest generation.

JavaScript `Map` objects are embedded as association lists in insertion order
(`Map.set` updates an existing key in place, otherwise appends; `Map.get`
returns the first — unique — binding).  Machine integers are embedded as
`Nat`/`Int`; JS truthiness of numbers (`x || d` yields `d` when `x` is `0` or
`undefined`) is embedded explicitly where the source relies on it.  Network
and filesystem effects are made explicit: the fetch of a URL is an oracle
argument, and writes performed by `fs.writeFileSync` are accumulated in a
`writes` log, issued requests in a `fetchLog`.
-/

/-! ## JavaScript `Map` as an insertion-ordered association list -/

/-- `Map.get`: first binding of the key, `undefined` (`none`) when absent. -/
def jsMapGet [DecidableEq κ] : List (κ × ν) → κ → Option ν
  | [], _ => none
  | (k', v) :: rest, k => if k = k' then some v else jsMapGet rest k

/-- `Map.set`: update the existing binding in place (keeping its position —
keys of a JS `Map` are unique), otherwise append a new binding. -/
def jsMapSet [DecidableEq κ] : List (κ × ν) → κ → ν → List (κ × ν)
  | [], k, v => [(k, v)]
  | (k', v') :: rest, k, v =>
    if k = k' then (k, v) :: rest else (k', v') :: jsMapSet rest k v

/-! ## The external WHATWG URL parser

The repository calls Node's built-in `new URL(...)` (an external capability)
for its `hostname` and `pathname` fields, and relies on it throwing on
malformed input.  It is modelled here at that interface for the `http(s)`
URLs the repository crawls: scheme, then host up to the first `/`, then the
remainder as the pathname (defaulting to `/`). -/

structure UrlParts where
  scheme : String
  hostname : String
  pathname : String
deriving DecidableEq

/-- Modelled external dependency: Node's WHATWG `new URL(u)`, restricted to
the fields the repository reads (`hostname`, `pathname`); `none` models the
`TypeError` thrown on malformed input.  (Query strings and fragments play no
role in the claims and are left inside the pathname.) -/
def parseUrl (u : String) : Option UrlParts :=
  let tryScheme : String → Option UrlParts := fun sch =>
    if (sch ++ "://").data.isPrefixOf u.data then
      let rest := u.data.drop (sch.length + 3)
      let host := rest.takeWhile (fun c => c ≠ '/')
      let path := rest.drop host.length
      if host = [] then none
      else some { scheme := sch, hostname := String.mk host,
                  pathname := if path = [] then "/" else String.mk path }
    else none
  match tryScheme "https" with
  | some p => some p
  | none => tryScheme "http"

/-- Boolean infix test on lists (JS `String.prototype.includes`). -/
def listContainsSeq [DecidableEq α] (sub : List α) : List α → Bool
  | [] => sub.isEmpty
  | a :: rest => sub.isPrefixOf (a :: rest) || listContainsSeq sub rest

/-- ASCII case folding of one character (JS `toLowerCase()` restricted to
the ASCII range relevant to URLs and the configured keywords). -/
def asciiLowerChar (c : Char) : Char :=
  if 65 ≤ c.toNat ∧ c.toNat ≤ 90 then Char.ofNat (c.toNat + 32) else c

/-- `url.toLowerCase()` on the character list. -/
def asciiLower (cs : List Char) : List Char :=
  cs.map asciiLowerChar

/-- JS `String.prototype.split(sep)` for a one-character separator. -/
def splitCharList (sep : Char) : List Char → List (List Char)
  | [] => [[]]
  | c :: rest =>
    if c = sep then [] :: splitCharList sep rest
    else
      match splitCharList sep rest with
      | h :: t => (c :: h) :: t
      | [] => [[c]]

/-- JS `Array.prototype.join(sep)` for a one-character separator. -/
def joinCharLists (sep : Char) : List (List Char) → List Char
  | [] => []
  | [x] => x
  | x :: xs => x ++ sep :: joinCharLists sep xs

/-! ## `NavigationCrawler` (core/navigation_crawler.js) -/

structure CrawlerConfig where
  maxLevel : Nat
  /-- `levelLimits` object: level → limit, `-1` = unlimited, absent = `undefined`. -/
  levelLimits : List (Nat × Int)
  legalKeywords : List String
deriving DecidableEq

/-- The constructor defaults of `NavigationCrawler`. -/
def defaultCrawlerConfig : CrawlerConfig :=
  { maxLevel := 3
    levelLimits := [(1, -1), (2, -1), (3, 1)]
    legalKeywords := ["impressum", "datenschutz", "agb", "privacy",
                      "terms", "legal", "cookies", "disclaimer"] }

structure CrawlerState where
  urlLevels : List (String × Nat)
  levelCounts : List (Nat × Nat)
  categoryPages : List (String × List String)
deriving DecidableEq

def initCrawlerState : CrawlerState :=
  { urlLevels := [], levelCounts := [], categoryPages := [] }

/-- `isLegalPage(url)`: lowercases the URL and tests whether any configured
keyword occurs in it verbatim (`urlLower.includes(keyword)` — the keyword
itself is *not* lowercased). -/
def isLegalPage (cfg : CrawlerConfig) (url : String) : Bool :=
  cfg.legalKeywords.any fun keyword =>
    listContainsSeq keyword.data (asciiLower url.data)

/-- `determineLevel(url, parentUrl)`: legal pages get the reserved level `0`;
a falsy parent (`null`, or the empty string) gives level `1`; otherwise the
parent's stored level (`urlLevels.get(parentUrl) || 0`, so an absent parent
counts as `0`) plus one. -/
def determineLevel (cfg : CrawlerConfig) (s : CrawlerState)
    (url : String) (parentUrl : Option String) : Nat :=
  if isLegalPage cfg url then 0
  else
    match parentUrl with
    | none => 1
    | some p =>
      if p = "" then 1
      else (jsMapGet s.urlLevels p).getD 0 + 1

/-- `shouldCrawl(url, parentUrl)`: legal pages always; reject above
`maxLevel`; `-1` limit is unlimited; an absent limit rejects
(`count < undefined` is `false` in JS); otherwise compare the level's visit
count against the limit. -/
def shouldCrawl (cfg : CrawlerConfig) (s : CrawlerState)
    (url : String) (parentUrl : Option String) : Bool :=
  let level := determineLevel cfg s url parentUrl
  if level = 0 then true
  else if level > cfg.maxLevel then false
  else
    match jsMapGet cfg.levelLimits level with
    | some limit =>
      if limit = -1 then true
      else ((jsMapGet s.levelCounts level).getD 0 : Int) < limit
    | none => false

/-- `registerUrl(url, parentUrl)`: recompute the level, store it
(overwriting any previous binding) and increment that level's counter. -/
def registerUrl (cfg : CrawlerConfig) (s : CrawlerState)
    (url : String) (parentUrl : Option String) : Nat × CrawlerState :=
  let level := determineLevel cfg s url parentUrl
  let currentCount := (jsMapGet s.levelCounts level).getD 0
  (level,
    { s with
      urlLevels := jsMapSet s.urlLevels url level
      levelCounts := jsMapSet s.levelCounts level (currentCount + 1) })

/-- `getCategory(url)`: first two non-empty path segments joined by `/`,
`"root"` when there are none (`join('/') || 'root'`); `none` models the
`TypeError` of `new URL(url)` on malformed input. -/
def getCategory (url : String) : Option String :=
  (parseUrl url).map fun parts =>
    let pathParts := (splitCharList '/' parts.pathname.data).filter (fun p => p ≠ [])
    let joined := joinCharLists '/' (pathParts.take 2)
    if joined = [] then "root" else String.mk joined

/-- The effective level-3 limit `this.config.levelLimits[3] || 1`:
an absent binding or the falsy value `0` both yield `1`. -/
def level3Limit (cfg : CrawlerConfig) : Int :=
  match jsMapGet cfg.levelLimits 3 with
  | some l => if l = 0 then 1 else l
  | none => 1

/-- `shouldCrawlLevel3(url)`: the URL's category bucket is still below the
effective level-3 limit. -/
def shouldCrawlLevel3 (cfg : CrawlerConfig) (s : CrawlerState)
    (url : String) : Option Bool :=
  (getCategory url).map fun category =>
    let pagesInCategory := (jsMapGet s.categoryPages category).getD []
    (pagesInCategory.length : Int) < level3Limit cfg

/-- `registerLevel3Page(url)`: push the URL onto its category bucket. -/
def registerLevel3Page (s : CrawlerState) (url : String) : CrawlerState :=
  match getCategory url with
  | none => s
  | some category =>
    let pagesInCategory := (jsMapGet s.categoryPages category).getD []
    { s with categoryPages :=
        jsMapSet s.categoryPages category (pagesInCategory ++ [url]) }

/-- The guarded admission step performed by
`ContentScraperWithImages.scrapePage` for a level-3 URL: register the page
in its category bucket only when `shouldCrawlLevel3` admits it. -/
def level3AdmissionStep (cfg : CrawlerConfig) (s : CrawlerState)
    (url : String) : CrawlerState :=
  match shouldCrawlLevel3 cfg s url with
  | some true => registerLevel3Page s url
  | _ => s

/-! ### The frontier priority order (`prioritizeUrls`) -/

/-- A pending work item as pushed onto `this.pendingUrls`. -/
structure WorkItem where
  url : String
  parentUrl : Option String
  level : Nat
  isNavigation : Bool
deriving DecidableEq

/-- The JS expression `this.urlLevels.get(url) || 999`: an absent binding
(`undefined`) *and* the falsy stored level `0` both yield `999`. -/
def jsLevelOr999 (v : Option Nat) : Nat :=
  match v with
  | some n => if n = 0 then 999 else n
  | none => 999

/-- The comparator passed to `urls.sort` in `prioritizeUrls`. -/
def compareWorkItems (s : CrawlerState) (a b : WorkItem) : Int :=
  let levelA := jsLevelOr999 (jsMapGet s.urlLevels a.url)
  let levelB := jsLevelOr999 (jsMapGet s.urlLevels b.url)
  if levelA = 0 && levelB ≠ 0 then -1
  else if levelB = 0 && levelA ≠ 0 then 1
  else if levelA ≠ levelB then (levelA : Int) - (levelB : Int)
  else if a.isNavigation && !b.isNavigation then -1
  else if b.isNavigation && !a.isNavigation then 1
  else 0

/-- Stable insertion by a JS comparator: `x` goes before the first element it
does not compare strictly after. -/
def insertByCmp (cmp : α → α → Int) (x : α) : List α → List α
  | [] => [x]
  | y :: ys => if cmp x y ≤ 0 then x :: y :: ys else y :: insertByCmp cmp x ys

/-- `Array.prototype.sort` with a consistent comparator, as specified by
ECMAScript: a stable sort ordered by the comparator. -/
def sortByCmp (cmp : α → α → Int) (l : List α) : List α :=
  l.foldr (insertByCmp cmp) []

/-- `prioritizeUrls(urls)`. -/
def prioritizeUrls (s : CrawlerState) (urls : List WorkItem) : List WorkItem :=
  sortByCmp (compareWorkItems s) urls

/-! ## `EnhancedImageDownloader` (utils/image_downloader_enhanced.js)

Filesystem and network effects are explicit: `writes` records every
`fs.writeFileSync` of asset bytes as `(path, bytes)`, `fetchLog` records every
issued HTTP request (`protocol.get`).  Directory creation (`fs.mkdirSync`),
the fixed inter-request delay, console output and the wall-clock
`generated_at` timestamp are pure I/O without data flow into the registry and
are not modelled. -/

structure DLConfig where
  baseOutputDir : String
  maxSize : Nat
  timeoutMs : Nat
deriving DecidableEq

structure DLStats where
  total : Nat
  downloaded : Nat
  duplicates : Nat
  failed : Nat
  totalSize : Nat
deriving DecidableEq

structure DLState where
  hashToPath : List (Nat × String)
  urlToHash : List (String × Nat)
  urlToPath : List (String × String)
  stats : DLStats
  writes : List (String × List Nat)
  fetchLog : List String
deriving DecidableEq

def initDLState : DLState :=
  { hashToPath := [], urlToHash := [], urlToPath := []
    stats := { total := 0, downloaded := 0, duplicates := 0, failed := 0, totalSize := 0 }
    writes := [], fetchLog := [] }

/-- Modelled external dependency: `calculateHash` delegates to Node's
`crypto` MD5.  It is embedded as a deterministic digest of the byte content —
determinism in the bytes is the only property the repository relies on (the
design notes explicitly allow a collision-prone hash). -/
def calculateHash (buffer : List Nat) : Nat :=
  buffer.foldl (fun h c => (h * 131 + c % 256) % (2 ^ 64)) 0

/-- ECMAScript `ToInt32`: wrap an integer into `[-2^31, 2^31)`. -/
def toInt32 (n : Int) : Int :=
  (n + 2 ^ 31) % 2 ^ 32 - 2 ^ 31

/-- `simpleHash(str)`: the 32-bit accumulator loop
`hash = ((hash << 5) - hash) + charCode; hash = hash & hash`. -/
def simpleHash (str : String) : Int :=
  str.data.foldl (fun h c => toInt32 (toInt32 (h * 32) - h + c.toNat)) 0

def base36Char (n : Nat) : Char :=
  if n < 10 then Char.ofNat (48 + n) else Char.ofNat (87 + n)

def natToBase36Go (fuel n : Nat) : List Char :=
  match fuel with
  | 0 => []
  | fuel + 1 => if n = 0 then [] else natToBase36Go fuel (n / 36) ++ [base36Char (n % 36)]

/-- JS `Math.abs(hash).toString(36)`. -/
def natToBase36 (n : Nat) : String :=
  if n = 0 then "0" else String.mk (natToBase36Go n n)

/-- `getLocalPathFromUrl(imageUrl, baseUrl)`: `baseOutputDir/hostname/path`
with the pathname's leading slash removed (`path.join` is modelled as
`/`-joining); if either URL fails to parse, the deterministic
`fallback/image_<simpleHash>.jpg` name. -/
def getLocalPathFromUrl (cfg : DLConfig) (imageUrl baseUrl : String) : String :=
  match parseUrl imageUrl, parseUrl baseUrl with
  | some url, some _ =>
    let cleanPath :=
      match url.pathname.data with
      | '/' :: rest => rest
      | other => other
    String.mk (joinCharLists '/' [cfg.baseOutputDir.data, url.hostname.data, cleanPath])
  | _, _ =>
    String.mk (joinCharLists '/'
      [cfg.baseOutputDir.data, "fallback".data,
       ("image_" ++ natToBase36 (simpleHash imageUrl).natAbs ++ ".jpg").data])

/-- The pre-streaming size guard `contentLength && contentLength > this.maxSize`:
a missing/unparsable header (`NaN`) and the falsy value `0` skip the check. -/
def contentLengthTooLarge (cl : Option Nat) (maxSize : Nat) : Bool :=
  match cl with
  | some n => n ≠ 0 && decide (n > maxSize)
  | none => false

/-- The outcome of the HTTP request for one URL: a response (status code,
parsed `content-length` header — `none` models a missing/unparsable header —
and the full byte stream), a transport error, or a timeout. -/
inductive FetchOutcome where
  | response (statusCode : Nat) (contentLength : Option Nat) (body : List Nat)
  | netError (msg : String)
  | timedOut
deriving DecidableEq

/-- The record `downloadImage` resolves with. Branches that do not set a
field (`size`, `duplicateOf`, `cached`) leave it `none`/`false`. -/
structure AssetRecord where
  url : String
  localPath : String
  contentHash : Option Nat
  duplicate : Bool
  cached : Bool
  duplicateOf : Option String
  size : Option Nat
deriving DecidableEq

/-- `downloadImage(imageUrl, baseUrl)`, with the network modelled by the
`fetch` oracle.  Mirrors the source: count the attempt; serve an already
recorded URL from the registry without a request; reject malformed URLs;
otherwise issue the request and reject on transport error, timeout, non-200
status, an oversized declared `content-length` (`contentLength &&
contentLength > maxSize` — the falsy values `0`/`NaN` skip the check), or
more received bytes than `maxSize`; then hash the bytes and either point the
URL at the existing file for a known hash, or write the file and register it. -/
def downloadImage (cfg : DLConfig) (fetch : String → FetchOutcome)
    (s : DLState) (imageUrl baseUrl : String) : Except String AssetRecord × DLState :=
  let s := { s with stats := { s.stats with total := s.stats.total + 1 } }
  match jsMapGet s.urlToPath imageUrl with
  | some existingPath =>
    (Except.ok
      { url := imageUrl, localPath := existingPath
        contentHash := jsMapGet s.urlToHash imageUrl
        duplicate := true, cached := true, duplicateOf := none, size := none },
     { s with stats := { s.stats with duplicates := s.stats.duplicates + 1 } })
  | none =>
    match parseUrl imageUrl with
    | none =>
      (Except.error "Invalid URL",
       { s with stats := { s.stats with failed := s.stats.failed + 1 } })
    | some _ =>
      let localPath := getLocalPathFromUrl cfg imageUrl baseUrl
      let s := { s with fetchLog := s.fetchLog ++ [imageUrl] }
      match fetch imageUrl with
      | FetchOutcome.netError msg =>
        (Except.error msg,
         { s with stats := { s.stats with failed := s.stats.failed + 1 } })
      | FetchOutcome.timedOut =>
        (Except.error "Download timeout",
         { s with stats := { s.stats with failed := s.stats.failed + 1 } })
      | FetchOutcome.response statusCode contentLength body =>
        if statusCode ≠ 200 then
          (Except.error ("HTTP " ++ toString statusCode), s)
        else if contentLengthTooLarge contentLength cfg.maxSize then
          (Except.error
            ("Image too large: " ++ toString (contentLength.getD 0) ++ " bytes"), s)
        else if body.length > cfg.maxSize then
          (Except.error "Image size exceeded maximum", s)
        else
          let contentHash := calculateHash body
          match jsMapGet s.hashToPath contentHash with
          | some existingPath =>
            (Except.ok
              { url := imageUrl, localPath := existingPath
                contentHash := some contentHash
                duplicate := true, cached := false
                duplicateOf := some existingPath, size := some body.length },
             { s with
               urlToHash := jsMapSet s.urlToHash imageUrl contentHash
               urlToPath := jsMapSet s.urlToPath imageUrl existingPath
               stats := { s.stats with duplicates := s.stats.duplicates + 1 } })
          | none =>
            (Except.ok
              { url := imageUrl, localPath := localPath
                contentHash := some contentHash
                duplicate := false, cached := false
                duplicateOf := none, size := some body.length },
             { s with
               writes := s.writes ++ [(localPath, body)]
               hashToPath := jsMapSet s.hashToPath contentHash localPath
               urlToHash := jsMapSet s.urlToHash imageUrl contentHash
               urlToPath := jsMapSet s.urlToPath imageUrl localPath
               stats := { s.stats with
                          downloaded := s.stats.downloaded + 1
                          totalSize := s.stats.totalSize + body.length } })

/-! ### The batch driver (`downloadAllImages`) -/

/-- An `img` element reference as carried in a scraped page (only `src`
flows into the downloader; `alt`/`title`/dimension attributes are carried
opaquely by the source and elided here). -/
structure PageImage where
  src : String
deriving DecidableEq

structure Page where
  images : List PageImage
deriving DecidableEq

/-- One step of filling the `uniqueImageUrls` set: `if (img.src)` skips a
falsy (empty) `src`, and a `Set` ignores re-insertion. -/
def insertUnique (acc : List String) (src : String) : List String :=
  if src = "" then acc else if src ∈ acc then acc else acc ++ [src]

/-- Collect all unique image URLs across the pages, in first-seen order. -/
def collectUniqueImageUrls (pages : List Page) : List String :=
  pages.foldl (fun acc page => page.images.foldl (fun a img => insertUnique a img.src) acc) []

structure BatchResult where
  success : List AssetRecord
  failed : List (String × String)
  duplicates : List AssetRecord
  statistics : DLStats
deriving DecidableEq

/-- The sequential download loop: a resolved record is appended to
`duplicates` or `success` according to its `duplicate` flag, a rejection is
appended to `failed` with the error message, and the loop always continues. -/
def runBatchLoop (cfg : DLConfig) (fetch : String → FetchOutcome) (baseUrl : String) :
    List String → DLState → List AssetRecord → List (String × String) → List AssetRecord →
    BatchResult × DLState
  | [], s, success, failed, duplicates =>
    ({ success := success, failed := failed, duplicates := duplicates
       statistics := s.stats }, s)
  | imageUrl :: rest, s, success, failed, duplicates =>
    match downloadImage cfg fetch s imageUrl baseUrl with
    | (Except.ok r, s') =>
      if r.duplicate then
        runBatchLoop cfg fetch baseUrl rest s' success failed (duplicates ++ [r])
      else
        runBatchLoop cfg fetch baseUrl rest s' (success ++ [r]) failed duplicates
    | (Except.error e, s') =>
      runBatchLoop cfg fetch baseUrl rest s' success (failed ++ [(imageUrl, e)]) duplicates

/-- `downloadAllImages(pages, baseUrl)`: de-duplicate the referenced image
URLs, then drive the sequential loop over them. -/
def downloadAllImages (cfg : DLConfig) (fetch : String → FetchOutcome)
    (s : DLState) (pages : List Page) (baseUrl : String) : BatchResult × DLState :=
  runBatchLoop cfg fetch baseUrl (collectUniqueImageUrls pages) s [] [] []

/-! ### `updatePagesWithLocalPaths` and `generateManifest` -/

/-- A page image after `updatePagesWithLocalPaths`: images whose `src` is in
the registry gain `localPath`, `hash` and the recomputed `duplicate` flag
(`hashToPath.get(urlToHash.get(src)) !== urlToPath.get(src)`); others are
returned unchanged (`none` fields). -/
structure UpdatedPageImage where
  src : String
  localPath : Option String
  contentHash : Option Nat
  duplicate : Option Bool
deriving DecidableEq

def updatePageImage (s : DLState) (img : PageImage) : UpdatedPageImage :=
  match jsMapGet s.urlToPath img.src with
  | some localPath =>
    { src := img.src
      localPath := some localPath
      contentHash := jsMapGet s.urlToHash img.src
      duplicate := some (decide
        (((jsMapGet s.urlToHash img.src).bind (jsMapGet s.hashToPath)) ≠ some localPath)) }
  | none => { src := img.src, localPath := none, contentHash := none, duplicate := none }

def updatePagesWithLocalPaths (s : DLState) (pages : List Page) : List (List UpdatedPageImage) :=
  pages.map fun page => page.images.map (updatePageImage s)

/-- `path.basename` (modelled on `/`-separated paths). -/
def pathBasename (p : String) : String :=
  String.mk ((splitCharList '/' p.data).getLastD p.data)

/-- `path.dirname` (modelled on `/`-separated paths). -/
def pathDirname (p : String) : String :=
  let parts := splitCharList '/' p.data
  if parts.length ≤ 1 then "." else String.mk (joinCharLists '/' parts.dropLast)

structure ManifestEntry where
  url : String
  localPath : String
  entryHash : Option Nat
  duplicate : Bool
  originalFile : Option String
  fileName : String
  directory : String
deriving DecidableEq

structure HashMapEntry where
  mapHash : Nat
  localPath : String
  fileName : String
deriving DecidableEq

structure ManifestStatistics where
  totalUrls : Nat
  uniqueFiles : Nat
  duplicates : Nat
  failed : Nat
  totalSizeBytes : Nat
deriving DecidableEq

structure ManifestData where
  baseOutputDir : String
  statistics : ManifestStatistics
  images : List ManifestEntry
  hashMap : List HashMapEntry
deriving DecidableEq

/-- One `images[]` manifest entry for a `urlToPath` binding:
`isDuplicate = hashToPath.get(urlToHash.get(url)) !== localPath`
(an undefined lookup compares as not-equal). -/
def mkManifestEntry (s : DLState) (url localPath : String) : ManifestEntry :=
  let entryHash := jsMapGet s.urlToHash url
  let isDuplicate : Bool :=
    decide ((entryHash.bind (jsMapGet s.hashToPath)) ≠ some localPath)
  { url := url, localPath := localPath, entryHash := entryHash
    duplicate := isDuplicate
    originalFile := if isDuplicate then entryHash.bind (jsMapGet s.hashToPath) else none
    fileName := pathBasename localPath
    directory := pathDirname localPath }

/-- `generateManifest(outputPath)` (the serialization to disk and the
wall-clock `generated_at` are I/O; the returned data is modelled). -/
def generateManifest (cfg : DLConfig) (s : DLState) : ManifestData :=
  { baseOutputDir := cfg.baseOutputDir
    statistics :=
      { totalUrls := s.stats.total, uniqueFiles := s.stats.downloaded
        duplicates := s.stats.duplicates, failed := s.stats.failed
        totalSizeBytes := s.stats.totalSize }
    images := s.urlToPath.map fun e => mkManifestEntry s e.1 e.2
    hashMap := s.hashToPath.map fun e =>
      { mapHash := e.1, localPath := e.2, fileName := pathBasename e.2 } }

/-- A sequence of `downloadImage` calls within one job, each with the
outcome the network produced for it. -/
def runDownloadSequence (cfg : DLConfig) (baseUrl : String)
    (calls : List (String × FetchOutcome)) (s : DLState) : DLState :=
  calls.foldl (fun st c => (downloadImage cfg (fun _ => c.2) st c.1 baseUrl).2) s

/-! ## Concrete instances and invariants used by the claim theorems -/

/-- A registry in which the legal page has been registered at the reserved
level `0` and an ordinary page at level `1`. -/
def c1State : CrawlerState :=
  { initCrawlerState with
    urlLevels := [("https://site.example/impressum", 0), ("https://site.example/about", 1)] }

def c1AboutItem : WorkItem :=
  { url := "https://site.example/about", parentUrl := none, level := 1, isNavigation := false }

def c1LegalItem : WorkItem :=
  { url := "https://site.example/impressum", parentUrl := none, level := 0, isNavigation := false }

/-- State of the crawler after registering, in order, the root
`https://site.example` (level 1), `/a` via the root (level 2) and `/b` via
`/a` (level 3). -/
def c2Chain : CrawlerState :=
  (registerUrl defaultCrawlerConfig
    (registerUrl defaultCrawlerConfig
      (registerUrl defaultCrawlerConfig initCrawlerState
        "https://site.example" none).2
      "https://site.example/a" (some "https://site.example")).2
    "https://site.example/b" (some "https://site.example/a")).2

/-- A crawler configuration with the deepest level `3` given the limit `0`
(`levelLimits = {3: 0}`). -/
def c5ZeroLimitConfig : CrawlerConfig :=
  { defaultCrawlerConfig with levelLimits := [(3, 0)] }

/-- The invariant that every category bucket respects the *effective*
level-3 limit `levelLimits[3] || 1` (clipped at `0`: a negative limit such
as the "unlimited" marker `-1` admits nothing through the guard). -/
def CategoryInvariant (cfg : CrawlerConfig) (s : CrawlerState) : Prop :=
  ∀ c : String,
    (((jsMapGet s.categoryPages c).getD []).length : Int) ≤ max (level3Limit cfg) 0

/-- Modelled from the spec: "case-insensitive substring match" of a keyword
against a URL — both sides case-folded. -/
def specCaseInsensitiveContains (url keyword : String) : Bool :=
  listContainsSeq (asciiLower keyword.data) (asciiLower url.data)

/-- A keyword configuration containing a mixed-case legal keyword. -/
def c6MixedCaseConfig : CrawlerConfig :=
  { defaultCrawlerConfig with legalKeywords := ["Privacy"] }

/-- The registry invariant of the downloader (claim C10): every URL recorded
in `urlToPath` points at the canonical file of its recorded content hash. -/
def RegistryInvariant (s : DLState) : Prop :=
  ∀ u p, jsMapGet s.urlToPath u = some p →
    ∃ h, jsMapGet s.urlToHash u = some h ∧ jsMapGet s.hashToPath h = some p

/-- The declared `content-length` does not trip the pre-streaming size check
`contentLength && contentLength > maxSize` (a missing header and the falsy
value `0` skip the check). -/
def contentLengthAdmits (cl : Option Nat) (maxSize : Nat) : Prop :=
  match cl with
  | some n => n = 0 ∨ n ≤ maxSize
  | none => True

/-- A downloader configuration used by the concrete runs. -/
def dlTestConfig : DLConfig :=
  { baseOutputDir := "out", maxSize := 1000, timeoutMs := 30000 }

def c4Url1 : String := "https://a.example/one.png"

def c4Url2 : String := "https://a.example/two.png"

/-- The downloader state after downloading, in one job, two distinct URLs
whose fetched bytes are both `[7, 7, 7]`. -/
def c4State : DLState :=
  runDownloadSequence dlTestConfig "https://a.example"
    [(c4Url1, FetchOutcome.response 200 none [7, 7, 7]),
     (c4Url2, FetchOutcome.response 200 none [7, 7, 7])]
    initDLState

def c8Url : String := "https://a.example/x.png"

/-- A network that answers every request with HTTP 404. -/
def c8Fetch404 : String → FetchOutcome :=
  fun _ => FetchOutcome.response 404 none []

/-! ## Lemmas -/

/-- Reading a JS map after a `set`. -/
theorem jsMapGet_jsMapSet [DecidableEq κ] (m : List (κ × ν)) (k k' : κ) (v : ν) :
    jsMapGet (jsMapSet m k v) k' = if k' = k then some v else jsMapGet m k' := by
  induction m with
  | nil =>
    by_cases h' : k' = k <;> simp [jsMapGet, jsMapSet, h']
  | cons kv rest ih =>
    obtain ⟨k₀, v₀⟩ := kv
    by_cases hk : k = k₀
    · subst hk
      by_cases h' : k' = k <;> simp [jsMapGet, jsMapSet, h']
    · by_cases h' : k' = k₀
      · subst h'
        simp [jsMapGet, jsMapSet, hk, Ne.symm hk]
      · simp [jsMapGet, jsMapSet, hk, h', ih]

theorem jsMapSet_of_get_none [DecidableEq κ] {m : List (κ × ν)} {k : κ}
    (h : jsMapGet m k = none) (v : ν) : jsMapSet m k v = m ++ [(k, v)] := by
  induction m with
  | nil => simp [jsMapSet]
  | cons kv rest ih =>
    obtain ⟨k₀, v₀⟩ := kv
    by_cases hk : k = k₀
    · simp [jsMapGet, hk] at h
    · simp only [jsMapGet, if_neg hk] at h
      simp [jsMapSet, hk, ih h]

theorem jsMapGet_none_of_mem [DecidableEq κ] {m : List (κ × ν)} {k : κ}
    (h : jsMapGet m k = none) : ∀ kv ∈ m, kv.1 ≠ k := by
  induction m with
  | nil => simp
  | cons kv₀ rest ih =>
    obtain ⟨k₀, v₀⟩ := kv₀
    by_cases hk : k = k₀
    · simp [jsMapGet, hk] at h
    · simp only [jsMapGet, if_neg hk] at h
      intro kv hkv
      rcases List.mem_cons.mp hkv with hkv | hkv
      · subst hkv; exact fun hc => hk hc.symm
      · exact ih h kv hkv

/-! ## Claims about the `NavigationCrawler` -/

/-! ### C1 — `prioritizeUrls` and legal pages -/

/-- C1: refuted at a concrete input.  With the legal page registered at
level `0` and an ordinary page at level `1`, `prioritizeUrls` leaves the
ordinary page *before* the legal page: the comparator reads
`urlLevels.get(url) || 999`, and the falsy stored level `0` becomes `999`,
so the explicit "legal pages first" branch can never fire.  The claimed
ordering (every level-0 item precedes every non-zero-level item) fails. -/
theorem c1_prioritize_puts_legal_page_last :
    prioritizeUrls c1State [c1AboutItem, c1LegalItem] = [c1AboutItem, c1LegalItem] ∧
    jsMapGet c1State.urlLevels c1LegalItem.url = some 0 ∧
    jsMapGet c1State.urlLevels c1AboutItem.url = some 1 ∧
    jsLevelOr999 (jsMapGet c1State.urlLevels c1LegalItem.url) = 999 := by
  decide

/-! ### C2 — `registerUrl` re-registration -/

/-- C2: refuted at a concrete input.  `https://site.example/a` is registered
at level `2`; re-registering it via the deeper parent `https://site.example/b`
(stored level `3`) returns `4`, overwrites the stored level `2` with `4`, and
increments the level-4 visit counter — `registerUrl` recomputes the level
from the new parent instead of returning the stored one. -/
theorem c2_reregistration_not_idempotent :
    jsMapGet c2Chain.urlLevels "https://site.example/a" = some 2 ∧
    jsMapGet c2Chain.levelCounts 4 = none ∧
    (registerUrl defaultCrawlerConfig c2Chain
      "https://site.example/a" (some "https://site.example/b")).1 = 4 ∧
    jsMapGet (registerUrl defaultCrawlerConfig c2Chain
      "https://site.example/a" (some "https://site.example/b")).2.urlLevels
      "https://site.example/a" = some 4 ∧
    jsMapGet (registerUrl defaultCrawlerConfig c2Chain
      "https://site.example/a" (some "https://site.example/b")).2.levelCounts 4 = some 1 := by
  decide

/-- C2 (amended): a later `registerUrl(u, p2)` on an already-registered `u`
does not consult the stored level: it returns the level freshly recomputed
from `p2` via `determineLevel`, overwrites `u`'s stored level with it, and
increments that recomputed level's visit counter by one (all other level
counters are untouched).  The stored level is preserved only when the
recomputation happens to coincide with it; the counters always change. -/
theorem c2_registerUrl_recomputes_level (cfg : CrawlerConfig) (s : CrawlerState)
    (u : String) (p2 : Option String) (L : Nat)
    (h : jsMapGet s.urlLevels u = some L) :
    (registerUrl cfg s u p2).1 = determineLevel cfg s u p2 ∧
    jsMapGet (registerUrl cfg s u p2).2.urlLevels u =
      some (determineLevel cfg s u p2) ∧
    jsMapGet (registerUrl cfg s u p2).2.levelCounts (determineLevel cfg s u p2) =
      some ((jsMapGet s.levelCounts (determineLevel cfg s u p2)).getD 0 + 1) ∧
    (∀ l, l ≠ determineLevel cfg s u p2 →
      jsMapGet (registerUrl cfg s u p2).2.levelCounts l = jsMapGet s.levelCounts l) := by
  refine ⟨rfl, ?_, ?_, ?_⟩
  · simp [registerUrl, jsMapGet_jsMapSet]
  · simp [registerUrl, jsMapGet_jsMapSet]
  · intro l hl
    simp [registerUrl, jsMapGet_jsMapSet, hl]

/-- Witness for `c2_registerUrl_recomputes_level` at a concrete
already-registered URL. -/
theorem c2_registerUrl_recomputes_level_witness :
    (registerUrl defaultCrawlerConfig c2Chain
      "https://site.example/a" (some "https://site.example/b")).1 =
      determineLevel defaultCrawlerConfig c2Chain
        "https://site.example/a" (some "https://site.example/b") ∧
    jsMapGet (registerUrl defaultCrawlerConfig c2Chain
      "https://site.example/a" (some "https://site.example/b")).2.urlLevels
      "https://site.example/a" =
      some (determineLevel defaultCrawlerConfig c2Chain
        "https://site.example/a" (some "https://site.example/b")) ∧
    jsMapGet (registerUrl defaultCrawlerConfig c2Chain
      "https://site.example/a" (some "https://site.example/b")).2.levelCounts
      (determineLevel defaultCrawlerConfig c2Chain
        "https://site.example/a" (some "https://site.example/b")) =
      some ((jsMapGet c2Chain.levelCounts
        (determineLevel defaultCrawlerConfig c2Chain
          "https://site.example/a" (some "https://site.example/b"))).getD 0 + 1) ∧
    (∀ l, l ≠ determineLevel defaultCrawlerConfig c2Chain
          "https://site.example/a" (some "https://site.example/b") →
      jsMapGet (registerUrl defaultCrawlerConfig c2Chain
        "https://site.example/a" (some "https://site.example/b")).2.levelCounts l =
        jsMapGet c2Chain.levelCounts l) :=
  c2_registerUrl_recomputes_level defaultCrawlerConfig c2Chain
    "https://site.example/a" (some "https://site.example/b") 2 (by decide)

/-! ### C5 — the per-category cap at the deepest level -/

/-- C5: refuted at a concrete input.  With `levelLimits[maxLevel] = 0`
(`maxLevel = 3`), the guard `shouldCrawlLevel3` still admits a URL, because
the effective limit is `this.config.levelLimits[3] || 1` and the falsy
configured value `0` becomes `1`: after one guarded admission the
`en/products` bucket holds `1 > 0 = levelLimits[maxLevel]` URLs. -/
theorem c5_zero_limit_exceeded :
    jsMapGet c5ZeroLimitConfig.levelLimits c5ZeroLimitConfig.maxLevel = some 0 ∧
    shouldCrawlLevel3 c5ZeroLimitConfig initCrawlerState
      "https://shop.example/en/products/a" = some true ∧
    ((jsMapGet (level3AdmissionStep c5ZeroLimitConfig initCrawlerState
        "https://shop.example/en/products/a").categoryPages
        "en/products").getD []).length = 1 := by
  decide

theorem level3AdmissionStep_preserves (cfg : CrawlerConfig) (s : CrawlerState)
    (url : String) (h : CategoryInvariant cfg s) :
    CategoryInvariant cfg (level3AdmissionStep cfg s url) := by
  cases hg : shouldCrawlLevel3 cfg s url with
  | none => simpa [level3AdmissionStep, hg] using h
  | some b =>
    cases b with
    | false => simpa [level3AdmissionStep, hg] using h
    | true =>
      simp only [level3AdmissionStep, hg]
      cases hc : getCategory url with
      | none => simpa [registerLevel3Page, hc] using h
      | some c₀ =>
        simp only [shouldCrawlLevel3, hc, Option.map_some'] at hg
        have hlt : (((jsMapGet s.categoryPages c₀).getD []).length : Int) <
            level3Limit cfg := by
          simpa using congrArg (fun o => o.getD false) hg
        intro c
        simp only [registerLevel3Page, hc]
        by_cases hcc : c = c₀
        · subst hcc
          rw [jsMapGet_jsMapSet, if_pos rfl]
          simp only [Option.getD_some]
          have h1 : ((((jsMapGet s.categoryPages c).getD [] ++ [url]).length : Nat) : Int)
              = (((jsMapGet s.categoryPages c).getD []).length : Int) + 1 := by
            push_cast [List.length_append, List.length_singleton]; ring
          rw [h1]
          exact le_trans (Int.lt_iff_add_one_le.mp hlt) (le_max_left _ _)
        · rw [jsMapGet_jsMapSet, if_neg hcc]
          exact h c

theorem categoryInvariant_init (cfg : CrawlerConfig) :
    CategoryInvariant cfg initCrawlerState := by
  intro c
  simp [initCrawlerState, jsMapGet]

theorem categoryInvariant_foldl (cfg : CrawlerConfig) :
    ∀ (trace : List String) (s : CrawlerState), CategoryInvariant cfg s →
      CategoryInvariant cfg (trace.foldl (level3AdmissionStep cfg) s)
  | [], _, h => h
  | _ :: rest, s, h =>
    categoryInvariant_foldl cfg rest _ (level3AdmissionStep_preserves cfg s _ h)

/-- C5 (amended): after any sequence of admission-guarded
`shouldCrawlLevel3`/`registerLevel3Page` operations, every category bucket
holds at most the *effective* deepest-level limit `levelLimits[3] || 1`
(clipped at `0`): the configured value `levelLimits[maxLevel]` itself bounds
the buckets only when it is positive, since the code reads the limit with the
JS default `|| 1` (so a configured `0` acts as `1`) and always at the literal
key `3`. -/
theorem c5_categoryPages_bounded (cfg : CrawlerConfig) (trace : List String)
    (c : String) :
    (((jsMapGet ((trace.foldl (level3AdmissionStep cfg))
        initCrawlerState).categoryPages c).getD []).length : Int) ≤
      max (level3Limit cfg) 0 :=
  categoryInvariant_foldl cfg trace initCrawlerState (categoryInvariant_init cfg) c

/-! ### C6 — legal keywords force the reserved level 0 -/

/-- C6: refuted at a concrete input.  `https://site.example/privacy`
contains the configured keyword `"Privacy"` case-insensitively, but
`isLegalPage` lowercases only the URL and compares the keyword verbatim, so
the classifier returns level `1`, not the reserved level `0`. -/
theorem c6_mixed_case_keyword_not_level0 :
    specCaseInsensitiveContains "https://site.example/privacy" "Privacy" = true ∧
    determineLevel c6MixedCaseConfig initCrawlerState
      "https://site.example/privacy" none = 1 := by
  decide

/-- C6 (amended): provided every configured legal keyword is written in
lowercase — as all the default keywords are — every URL that contains a
configured keyword as a case-insensitive substring is classified at the
reserved level `0`, for every parent argument and in every crawler state. -/
theorem c6_legal_keyword_level0 (cfg : CrawlerConfig) (s : CrawlerState)
    (u : String) (p : Option String)
    (hlow : ∀ k ∈ cfg.legalKeywords, asciiLower k.data = k.data)
    (hmatch : ∃ k ∈ cfg.legalKeywords, specCaseInsensitiveContains u k = true) :
    determineLevel cfg s u p = 0 := by
  obtain ⟨k, hk, hck⟩ := hmatch
  have hleg : isLegalPage cfg u = true := by
    unfold isLegalPage
    rw [List.any_eq_true]
    refine ⟨k, hk, ?_⟩
    unfold specCaseInsensitiveContains at hck
    rwa [hlow k hk] at hck
  unfold determineLevel
  rw [hleg]
  simp

/-- Witness for `c6_legal_keyword_level0`: the default (all-lowercase)
keywords classify `https://site.example/PRIVACY` at level `0` even under a
deep parent. -/
theorem c6_legal_keyword_level0_witness :
    determineLevel defaultCrawlerConfig c2Chain
      "https://site.example/PRIVACY" (some "https://site.example/b") = 0 :=
  c6_legal_keyword_level0 defaultCrawlerConfig c2Chain
    "https://site.example/PRIVACY" (some "https://site.example/b")
    (by decide) ⟨"privacy", by decide, by decide⟩

/-- Unfolding `downloadImage` for an already-recorded URL: the cached record
is returned, and nothing but the `total`/`duplicates` counters changes — in
particular no request is issued and nothing is written. -/
theorem downloadImage_cached (cfg : DLConfig) (fetch : String → FetchOutcome)
    (s : DLState) (u b p : String) (h : jsMapGet s.urlToPath u = some p) :
    downloadImage cfg fetch s u b =
      (Except.ok
        { url := u, localPath := p, contentHash := jsMapGet s.urlToHash u,
          duplicate := true, cached := true, duplicateOf := none, size := none },
       { s with stats := { s.stats with
                           total := s.stats.total + 1,
                           duplicates := s.stats.duplicates + 1 } }) := by
  simp only [downloadImage, h]

/-- The pre-streaming `content-length` guard evaluates to `false` exactly
when the declared length admits the transfer. -/
theorem contentLength_guard_false {cl : Option Nat} {maxSize : Nat}
    (hcl : contentLengthAdmits cl maxSize) :
    contentLengthTooLarge cl maxSize = false := by
  cases cl with
  | none => rfl
  | some n =>
    rcases hcl with h0 | hle
    · subst h0; simp [contentLengthTooLarge]
    · have : ¬ (n > maxSize) := by omega
      simp [contentLengthTooLarge, this]

/-- Unfolding `downloadImage` for a first-seen URL whose bytes hash to a
fresh value: the file is written at the derived path and all three registry
maps gain the new bindings. -/
theorem downloadImage_fresh (cfg : DLConfig) (fetch : String → FetchOutcome)
    (s : DLState) (u b : String) (cl : Option Nat) (body : List Nat)
    (hu : jsMapGet s.urlToPath u = none)
    (hp : (parseUrl u).isSome = true)
    (hf : fetch u = FetchOutcome.response 200 cl body)
    (hcl : contentLengthAdmits cl cfg.maxSize)
    (hbody : body.length ≤ cfg.maxSize)
    (hh : jsMapGet s.hashToPath (calculateHash body) = none) :
    downloadImage cfg fetch s u b =
      (Except.ok
        { url := u, localPath := getLocalPathFromUrl cfg u b
          contentHash := some (calculateHash body)
          duplicate := false, cached := false, duplicateOf := none
          size := some body.length },
       { s with
         writes := s.writes ++ [(getLocalPathFromUrl cfg u b, body)]
         hashToPath := jsMapSet s.hashToPath (calculateHash body) (getLocalPathFromUrl cfg u b)
         urlToHash := jsMapSet s.urlToHash u (calculateHash body)
         urlToPath := jsMapSet s.urlToPath u (getLocalPathFromUrl cfg u b)
         fetchLog := s.fetchLog ++ [u]
         stats := { s.stats with
                    total := s.stats.total + 1
                    downloaded := s.stats.downloaded + 1
                    totalSize := s.stats.totalSize + body.length } }) := by
  obtain ⟨parts, hparts⟩ := Option.isSome_iff_exists.mp hp
  simp only [downloadImage, hu, hparts, hf]
  rw [if_neg (by decide : ¬ ((200 : Nat) ≠ 200))]
  rw [contentLength_guard_false hcl]
  simp only [Bool.false_eq_true, if_false]
  rw [if_neg (by omega : ¬ (body.length > cfg.maxSize))]
  simp only [hh]

/-- Unfolding `downloadImage` for a first-seen URL whose bytes hash to an
already-registered value: nothing is written, and the URL is pointed at the
existing file's path. -/
theorem downloadImage_content_dup (cfg : DLConfig) (fetch : String → FetchOutcome)
    (s : DLState) (u b existingPath : String) (cl : Option Nat) (body : List Nat)
    (hu : jsMapGet s.urlToPath u = none)
    (hp : (parseUrl u).isSome = true)
    (hf : fetch u = FetchOutcome.response 200 cl body)
    (hcl : contentLengthAdmits cl cfg.maxSize)
    (hbody : body.length ≤ cfg.maxSize)
    (hh : jsMapGet s.hashToPath (calculateHash body) = some existingPath) :
    downloadImage cfg fetch s u b =
      (Except.ok
        { url := u, localPath := existingPath
          contentHash := some (calculateHash body)
          duplicate := true, cached := false
          duplicateOf := some existingPath, size := some body.length },
       { s with
         urlToHash := jsMapSet s.urlToHash u (calculateHash body)
         urlToPath := jsMapSet s.urlToPath u existingPath
         fetchLog := s.fetchLog ++ [u]
         stats := { s.stats with
                    total := s.stats.total + 1
                    duplicates := s.stats.duplicates + 1 } }) := by
  obtain ⟨parts, hparts⟩ := Option.isSome_iff_exists.mp hp
  simp only [downloadImage, hu, hparts, hf]
  rw [if_neg (by decide : ¬ ((200 : Nat) ≠ 200))]
  rw [contentLength_guard_false hcl]
  simp only [Bool.false_eq_true, if_false]
  rw [if_neg (by omega : ¬ (body.length > cfg.maxSize))]
  simp only [hh]

/-! ### C7 — the size ceiling -/

/-- C7: an asset whose declared `content-length` or whose actually received
byte count exceeds `maxSize` is rejected with a size-exceeded failure (the
rejection is what `downloadAllImages` records in its failed list), and no
file is written: the `writes` log and the registry maps are untouched. -/
theorem c7_oversized_asset_rejected (cfg : DLConfig) (fetch : String → FetchOutcome)
    (s : DLState) (u b : String) (cl : Option Nat) (body : List Nat)
    (hnc : jsMapGet s.urlToPath u = none)
    (hp : (parseUrl u).isSome = true)
    (hf : fetch u = FetchOutcome.response 200 cl body)
    (hsize : (∃ n, cl = some n ∧ 0 < n ∧ cfg.maxSize < n) ∨ cfg.maxSize < body.length) :
    ((downloadImage cfg fetch s u b).1 =
        Except.error ("Image too large: " ++ toString (cl.getD 0) ++ " bytes") ∨
      (downloadImage cfg fetch s u b).1 = Except.error "Image size exceeded maximum") ∧
    (downloadImage cfg fetch s u b).2.writes = s.writes ∧
    (downloadImage cfg fetch s u b).2.hashToPath = s.hashToPath ∧
    (downloadImage cfg fetch s u b).2.urlToPath = s.urlToPath := by
  obtain ⟨parts, hparts⟩ := Option.isSome_iff_exists.mp hp
  by_cases hC : contentLengthTooLarge cl cfg.maxSize = true
  · simp only [downloadImage, hnc, hparts, hf]
    rw [if_neg (by decide : ¬ ((200 : Nat) ≠ 200))]
    rw [hC]
    rw [if_pos rfl]
    exact ⟨Or.inl rfl, rfl, rfl, rfl⟩
  · have hC' : contentLengthTooLarge cl cfg.maxSize = false := by
      simpa using hC
    have hbody : cfg.maxSize < body.length := by
      rcases hsize with ⟨n, hn, hn0, hnmax⟩ | hb
      · exfalso
        apply hC
        subst hn
        simp only [contentLengthTooLarge, Bool.and_eq_true, decide_eq_true_eq]
        exact ⟨by omega, by omega⟩
      · exact hb
    simp only [downloadImage, hnc, hparts, hf]
    rw [if_neg (by decide : ¬ ((200 : Nat) ≠ 200))]
    rw [hC']
    simp only [Bool.false_eq_true, if_false]
    rw [if_pos (by omega : body.length > cfg.maxSize)]
    exact ⟨Or.inr rfl, rfl, rfl, rfl⟩

/-- Witness for `c7_oversized_asset_rejected`: a 2000-byte declared length
against the 1000-byte ceiling of `dlTestConfig`. -/
theorem c7_oversized_asset_rejected_witness :
    ((downloadImage dlTestConfig
        (fun _ => FetchOutcome.response 200 (some 2000) [1, 2])
        initDLState c8Url "https://a.example").1 =
        Except.error ("Image too large: " ++ toString ((some 2000 : Option Nat).getD 0) ++ " bytes") ∨
      (downloadImage dlTestConfig
        (fun _ => FetchOutcome.response 200 (some 2000) [1, 2])
        initDLState c8Url "https://a.example").1 = Except.error "Image size exceeded maximum") ∧
    (downloadImage dlTestConfig
      (fun _ => FetchOutcome.response 200 (some 2000) [1, 2])
      initDLState c8Url "https://a.example").2.writes = initDLState.writes ∧
    (downloadImage dlTestConfig
      (fun _ => FetchOutcome.response 200 (some 2000) [1, 2])
      initDLState c8Url "https://a.example").2.hashToPath = initDLState.hashToPath ∧
    (downloadImage dlTestConfig
      (fun _ => FetchOutcome.response 200 (some 2000) [1, 2])
      initDLState c8Url "https://a.example").2.urlToPath = initDLState.urlToPath :=
  c7_oversized_asset_rejected dlTestConfig
    (fun _ => FetchOutcome.response 200 (some 2000) [1, 2])
    initDLState c8Url "https://a.example" (some 2000) [1, 2]
    (by decide) (by decide) rfl
    (Or.inl ⟨2000, rfl, by decide, by decide⟩)

/-! ### C8 — idempotence of `downloadImage` per URL -/

/-- C8: refuted at a concrete input.  A URL whose first attempt *failed*
(HTTP 404) is not recorded in `urlToPath`, so a second `downloadImage` call
issues a second network request (`fetchLog` grows to two entries) instead of
returning a cached record — the cache covers only successful attempts. -/
theorem c8_failed_attempt_refetches :
    (downloadImage dlTestConfig c8Fetch404 initDLState c8Url "https://a.example").2.stats.total = 1 ∧
    (downloadImage dlTestConfig c8Fetch404 initDLState c8Url "https://a.example").1.toOption = none ∧
    (downloadImage dlTestConfig c8Fetch404
      (downloadImage dlTestConfig c8Fetch404 initDLState c8Url "https://a.example").2
      c8Url "https://a.example").2.fetchLog = [c8Url, c8Url] := by
  decide

/-- C8 (amended): for every asset URL whose earlier attempt in this job
*succeeded* (or was resolved as a content duplicate) — i.e. the URL is
recorded in `urlToPath` — a second `downloadImage` call returns the cached
record immediately: no request is issued (`fetchLog` unchanged), nothing is
written, and the registry maps are untouched. -/
theorem c8_recorded_url_returns_cached (cfg : DLConfig) (fetch : String → FetchOutcome)
    (s : DLState) (u b p : String)
    (h : jsMapGet s.urlToPath u = some p) :
    (downloadImage cfg fetch s u b).1 = Except.ok
      { url := u, localPath := p, contentHash := jsMapGet s.urlToHash u,
        duplicate := true, cached := true, duplicateOf := none, size := none } ∧
    (downloadImage cfg fetch s u b).2.fetchLog = s.fetchLog ∧
    (downloadImage cfg fetch s u b).2.writes = s.writes ∧
    (downloadImage cfg fetch s u b).2.urlToPath = s.urlToPath ∧
    (downloadImage cfg fetch s u b).2.urlToHash = s.urlToHash ∧
    (downloadImage cfg fetch s u b).2.hashToPath = s.hashToPath := by
  rw [downloadImage_cached cfg fetch s u b p h]
  exact ⟨rfl, rfl, rfl, rfl, rfl, rfl⟩

/-- Witness for `c8_recorded_url_returns_cached`: the first URL of the
`c4State` job is recorded, and a new call serves it from the cache. -/
theorem c8_recorded_url_returns_cached_witness :
    (downloadImage dlTestConfig c8Fetch404 c4State c4Url1 "https://a.example").1 = Except.ok
      { url := c4Url1, localPath := "out/a.example/one.png",
        contentHash := jsMapGet c4State.urlToHash c4Url1,
        duplicate := true, cached := true, duplicateOf := none, size := none } ∧
    (downloadImage dlTestConfig c8Fetch404 c4State c4Url1 "https://a.example").2.fetchLog = c4State.fetchLog ∧
    (downloadImage dlTestConfig c8Fetch404 c4State c4Url1 "https://a.example").2.writes = c4State.writes ∧
    (downloadImage dlTestConfig c8Fetch404 c4State c4Url1 "https://a.example").2.urlToPath = c4State.urlToPath ∧
    (downloadImage dlTestConfig c8Fetch404 c4State c4Url1 "https://a.example").2.urlToHash = c4State.urlToHash ∧
    (downloadImage dlTestConfig c8Fetch404 c4State c4Url1 "https://a.example").2.hashToPath = c4State.hashToPath :=
  c8_recorded_url_returns_cached dlTestConfig c8Fetch404 c4State c4Url1
    "https://a.example" "out/a.example/one.png" (by decide)

/-! ### C3 — identical bytes produce one file and one path -/

/-- C3: two distinct, not-yet-attempted URLs whose successful transfers carry
identical bytes (of fresh content) produce exactly one new file on disk —
the second transfer's bytes are discarded — and both URLs resolve to the
first URL's derived path, in the registry (`urlToPath`) and in every manifest
entry generated for either URL. -/
theorem c3_identical_content_single_file (cfg : DLConfig) (fetch : String → FetchOutcome)
    (s : DLState) (u1 u2 b : String) (cl1 cl2 : Option Nat) (body : List Nat)
    (h12 : u1 ≠ u2)
    (hu1 : jsMapGet s.urlToPath u1 = none) (hu2 : jsMapGet s.urlToPath u2 = none)
    (hp1 : (parseUrl u1).isSome = true) (hp2 : (parseUrl u2).isSome = true)
    (hf1 : fetch u1 = FetchOutcome.response 200 cl1 body)
    (hf2 : fetch u2 = FetchOutcome.response 200 cl2 body)
    (hcl1 : contentLengthAdmits cl1 cfg.maxSize)
    (hcl2 : contentLengthAdmits cl2 cfg.maxSize)
    (hbody : body.length ≤ cfg.maxSize)
    (hh : jsMapGet s.hashToPath (calculateHash body) = none) :
    (downloadImage cfg fetch (downloadImage cfg fetch s u1 b).2 u2 b).2.writes =
        s.writes ++ [(getLocalPathFromUrl cfg u1 b, body)] ∧
    jsMapGet (downloadImage cfg fetch (downloadImage cfg fetch s u1 b).2 u2 b).2.urlToPath u1 =
        some (getLocalPathFromUrl cfg u1 b) ∧
    jsMapGet (downloadImage cfg fetch (downloadImage cfg fetch s u1 b).2 u2 b).2.urlToPath u2 =
        some (getLocalPathFromUrl cfg u1 b) ∧
    (∀ e ∈ (generateManifest cfg
        (downloadImage cfg fetch (downloadImage cfg fetch s u1 b).2 u2 b).2).images,
      e.url = u1 ∨ e.url = u2 → e.localPath = getLocalPathFromUrl cfg u1 b) := by
  have h1 := downloadImage_fresh cfg fetch s u1 b cl1 body hu1 hp1 hf1 hcl1 hbody hh
  have hs1 : (downloadImage cfg fetch s u1 b).2 =
      { s with
        writes := s.writes ++ [(getLocalPathFromUrl cfg u1 b, body)]
        hashToPath := jsMapSet s.hashToPath (calculateHash body) (getLocalPathFromUrl cfg u1 b)
        urlToHash := jsMapSet s.urlToHash u1 (calculateHash body)
        urlToPath := jsMapSet s.urlToPath u1 (getLocalPathFromUrl cfg u1 b)
        fetchLog := s.fetchLog ++ [u1]
        stats := { s.stats with
                   total := s.stats.total + 1
                   downloaded := s.stats.downloaded + 1
                   totalSize := s.stats.totalSize + body.length } } :=
    congrArg Prod.snd h1
  have hu2' : jsMapGet (downloadImage cfg fetch s u1 b).2.urlToPath u2 = none := by
    rw [hs1]
    dsimp only
    rw [jsMapGet_jsMapSet, if_neg (fun hc => h12 hc.symm)]
    exact hu2
  have hhash1 : jsMapGet (downloadImage cfg fetch s u1 b).2.hashToPath (calculateHash body) =
      some (getLocalPathFromUrl cfg u1 b) := by
    rw [hs1]
    dsimp only
    rw [jsMapGet_jsMapSet, if_pos rfl]
  have h2 := downloadImage_content_dup cfg fetch (downloadImage cfg fetch s u1 b).2 u2 b
    (getLocalPathFromUrl cfg u1 b) cl2 body hu2' hp2 hf2 hcl2 hbody hhash1
  have hs2 : (downloadImage cfg fetch (downloadImage cfg fetch s u1 b).2 u2 b).2 =
      { (downloadImage cfg fetch s u1 b).2 with
        urlToHash := jsMapSet (downloadImage cfg fetch s u1 b).2.urlToHash u2 (calculateHash body)
        urlToPath := jsMapSet (downloadImage cfg fetch s u1 b).2.urlToPath u2
          (getLocalPathFromUrl cfg u1 b)
        fetchLog := (downloadImage cfg fetch s u1 b).2.fetchLog ++ [u2]
        stats := { (downloadImage cfg fetch s u1 b).2.stats with
                   total := (downloadImage cfg fetch s u1 b).2.stats.total + 1
                   duplicates := (downloadImage cfg fetch s u1 b).2.stats.duplicates + 1 } } :=
    congrArg Prod.snd h2
  have hwrites : (downloadImage cfg fetch (downloadImage cfg fetch s u1 b).2 u2 b).2.writes =
      s.writes ++ [(getLocalPathFromUrl cfg u1 b, body)] := by
    rw [hs2]
    dsimp only
    rw [hs1]
  have hget1 : jsMapGet
      (downloadImage cfg fetch (downloadImage cfg fetch s u1 b).2 u2 b).2.urlToPath u1 =
      some (getLocalPathFromUrl cfg u1 b) := by
    rw [hs2]
    dsimp only
    rw [jsMapGet_jsMapSet, if_neg h12, hs1]
    dsimp only
    rw [jsMapGet_jsMapSet, if_pos rfl]
  have hget2 : jsMapGet
      (downloadImage cfg fetch (downloadImage cfg fetch s u1 b).2 u2 b).2.urlToPath u2 =
      some (getLocalPathFromUrl cfg u1 b) := by
    rw [hs2]
    dsimp only
    rw [jsMapGet_jsMapSet, if_pos rfl]
  have hlist : (downloadImage cfg fetch (downloadImage cfg fetch s u1 b).2 u2 b).2.urlToPath =
      s.urlToPath ++ [(u1, getLocalPathFromUrl cfg u1 b)] ++ [(u2, getLocalPathFromUrl cfg u1 b)] := by
    rw [hs2]
    dsimp only
    rw [jsMapSet_of_get_none hu2', hs1]
    dsimp only
    rw [jsMapSet_of_get_none hu1]
  refine ⟨hwrites, hget1, hget2, ?_⟩
  intro e he hurl
  rw [generateManifest] at he
  dsimp only at he
  obtain ⟨⟨k, v⟩, hkv, hke⟩ := List.mem_map.mp he
  have hek : e.url = k := by rw [← hke]; rfl
  have hev : e.localPath = v := by rw [← hke]; rfl
  rw [hlist] at hkv
  rcases List.mem_append.mp hkv with hkv | hkv
  · rcases List.mem_append.mp hkv with hkv | hkv
    · exfalso
      have hk1 := jsMapGet_none_of_mem hu1 (k, v) hkv
      have hk2 := jsMapGet_none_of_mem hu2 (k, v) hkv
      rcases hurl with hurl | hurl
      · exact hk1 (hek ▸ hurl)
      · exact hk2 (hek ▸ hurl)
    · rcases List.mem_singleton.mp hkv with hkv'
      rw [hev]
      exact congrArg Prod.snd hkv'
  · rcases List.mem_singleton.mp hkv with hkv'
    rw [hev]
    exact congrArg Prod.snd hkv'

/-- Witness for `c3_identical_content_single_file`: two fresh URLs fetched
with identical bytes `[7, 7, 7]` in an empty job. -/
theorem c3_identical_content_single_file_witness :
    (downloadImage dlTestConfig (fun _ => FetchOutcome.response 200 none [7, 7, 7])
      (downloadImage dlTestConfig (fun _ => FetchOutcome.response 200 none [7, 7, 7])
        initDLState c4Url1 "https://a.example").2 c4Url2 "https://a.example").2.writes =
        initDLState.writes ++
          [(getLocalPathFromUrl dlTestConfig c4Url1 "https://a.example", [7, 7, 7])] ∧
    jsMapGet (downloadImage dlTestConfig (fun _ => FetchOutcome.response 200 none [7, 7, 7])
      (downloadImage dlTestConfig (fun _ => FetchOutcome.response 200 none [7, 7, 7])
        initDLState c4Url1 "https://a.example").2 c4Url2 "https://a.example").2.urlToPath c4Url1 =
        some (getLocalPathFromUrl dlTestConfig c4Url1 "https://a.example") ∧
    jsMapGet (downloadImage dlTestConfig (fun _ => FetchOutcome.response 200 none [7, 7, 7])
      (downloadImage dlTestConfig (fun _ => FetchOutcome.response 200 none [7, 7, 7])
        initDLState c4Url1 "https://a.example").2 c4Url2 "https://a.example").2.urlToPath c4Url2 =
        some (getLocalPathFromUrl dlTestConfig c4Url1 "https://a.example") ∧
    (∀ e ∈ (generateManifest dlTestConfig
        (downloadImage dlTestConfig (fun _ => FetchOutcome.response 200 none [7, 7, 7])
          (downloadImage dlTestConfig (fun _ => FetchOutcome.response 200 none [7, 7, 7])
            initDLState c4Url1 "https://a.example").2 c4Url2 "https://a.example").2).images,
      e.url = c4Url1 ∨ e.url = c4Url2 →
        e.localPath = getLocalPathFromUrl dlTestConfig c4Url1 "https://a.example") :=
  c3_identical_content_single_file dlTestConfig
    (fun _ => FetchOutcome.response 200 none [7, 7, 7])
    initDLState c4Url1 c4Url2 "https://a.example" none none [7, 7, 7]
    (by decide) (by decide) (by decide) (by decide) (by decide)
    rfl rfl trivial trivial (by decide) (by decide)

/-! ### C4 — the manifest's `duplicate` flag -/

/-- C4: refuted at a concrete input.  After downloading two distinct URLs
with byte-identical content in one job (`c4State`: one file written, and the
downloader counted one duplicate), *neither* manifest entry is marked
`duplicate` — both carry `duplicate = false` and the shared path — and the
updated page images likewise both get `duplicate = false`: since a duplicate
URL is registered with the original's path, the manifest test
`hashToPath.get(hash) !== localPath` can never be true. -/
theorem c4_duplicate_flag_never_set :
    (generateManifest dlTestConfig c4State).images.map
        (fun e => (e.url, e.localPath, e.duplicate)) =
      [(c4Url1, "out/a.example/one.png", false),
       (c4Url2, "out/a.example/one.png", false)] ∧
    c4State.stats.duplicates = 1 ∧
    c4State.writes.length = 1 ∧
    (updatePagesWithLocalPaths c4State
        [{ images := [{ src := c4Url1 }, { src := c4Url2 }] }]).map
        (fun imgs => imgs.map (fun i => i.duplicate)) =
      [[some false, some false]] := by
  decide

/-! ### C10 — the registry always resolves a URL to its hash's canonical path -/

theorem contentLengthAdmits_of_guard_false {cl : Option Nat} {maxSize : Nat}
    (h : contentLengthTooLarge cl maxSize = false) :
    contentLengthAdmits cl maxSize := by
  cases cl with
  | none => trivial
  | some n =>
    simp only [contentLengthTooLarge, Bool.and_eq_false_iff, decide_eq_false_iff_not] at h
    rcases h with h | h
    · exact Or.inl (not_not.mp h)
    · exact Or.inr (by omega)

/-- Every `downloadImage` call preserves the registry invariant. -/
theorem downloadImage_preserves_registry (cfg : DLConfig) (fetch : String → FetchOutcome)
    (s : DLState) (u b : String) (hInv : RegistryInvariant s) :
    RegistryInvariant (downloadImage cfg fetch s u b).2 := by
  cases hc : jsMapGet s.urlToPath u with
  | some p =>
    rw [downloadImage_cached cfg fetch s u b p hc]
    intro u' p' hg
    exact hInv u' p' hg
  | none =>
    cases hp : parseUrl u with
    | none =>
      have heq : (downloadImage cfg fetch s u b).2 =
          { s with stats := { s.stats with
                              total := s.stats.total + 1
                              failed := s.stats.failed + 1 } } := by
        simp only [downloadImage, hc, hp]
      rw [heq]
      intro u' p' hg
      exact hInv u' p' hg
    | some parts =>
      cases hf : fetch u with
      | netError m =>
        have heq : (downloadImage cfg fetch s u b).2 =
            { s with
              fetchLog := s.fetchLog ++ [u]
              stats := { s.stats with
                         total := s.stats.total + 1
                         failed := s.stats.failed + 1 } } := by
          simp only [downloadImage, hc, hp, hf]
        rw [heq]
        intro u' p' hg
        exact hInv u' p' hg
      | timedOut =>
        have heq : (downloadImage cfg fetch s u b).2 =
            { s with
              fetchLog := s.fetchLog ++ [u]
              stats := { s.stats with
                         total := s.stats.total + 1
                         failed := s.stats.failed + 1 } } := by
          simp only [downloadImage, hc, hp, hf]
        rw [heq]
        intro u' p' hg
        exact hInv u' p' hg
      | response st cl body =>
        by_cases hst : st = 200
        · subst hst
          by_cases hcl : contentLengthTooLarge cl cfg.maxSize = true
          · have heq : (downloadImage cfg fetch s u b).2 =
                { s with
                  fetchLog := s.fetchLog ++ [u]
                  stats := { s.stats with total := s.stats.total + 1 } } := by
              simp only [downloadImage, hc, hp, hf]
              rw [if_neg (by decide : ¬ ((200 : Nat) ≠ 200)), hcl, if_pos rfl]
            rw [heq]
            intro u' p' hg
            exact hInv u' p' hg
          · have hcl' : contentLengthTooLarge cl cfg.maxSize = false := by
              simpa using hcl
            by_cases hbl : body.length > cfg.maxSize
            · have heq : (downloadImage cfg fetch s u b).2 =
                  { s with
                    fetchLog := s.fetchLog ++ [u]
                    stats := { s.stats with total := s.stats.total + 1 } } := by
                simp only [downloadImage, hc, hp, hf]
                rw [if_neg (by decide : ¬ ((200 : Nat) ≠ 200)), hcl']
                simp only [Bool.false_eq_true, if_false]
                rw [if_pos hbl]
              rw [heq]
              intro u' p' hg
              exact hInv u' p' hg
            · have hbody : body.length ≤ cfg.maxSize := by omega
              have hpsome : (parseUrl u).isSome = true := by rw [hp]; rfl
              have hadm := contentLengthAdmits_of_guard_false hcl'
              cases hh : jsMapGet s.hashToPath (calculateHash body) with
              | some ep =>
                have heq := downloadImage_content_dup cfg fetch s u b ep cl body
                  hc hpsome hf hadm hbody hh
                rw [congrArg Prod.snd heq]
                intro u' p' hg
                dsimp only at hg
                rw [jsMapGet_jsMapSet] at hg
                by_cases hu' : u' = u
                · subst hu'
                  rw [if_pos rfl] at hg
                  obtain rfl : ep = p' := by injection hg
                  refine ⟨calculateHash body, ?_, ?_⟩
                  · dsimp only
                    rw [jsMapGet_jsMapSet, if_pos rfl]
                  · exact hh
                · rw [if_neg hu'] at hg
                  obtain ⟨h', h1, h2⟩ := hInv u' p' hg
                  refine ⟨h', ?_, h2⟩
                  dsimp only
                  rw [jsMapGet_jsMapSet, if_neg hu']
                  exact h1
              | none =>
                have heq := downloadImage_fresh cfg fetch s u b cl body
                  hc hpsome hf hadm hbody hh
                rw [congrArg Prod.snd heq]
                intro u' p' hg
                dsimp only at hg
                rw [jsMapGet_jsMapSet] at hg
                by_cases hu' : u' = u
                · subst hu'
                  rw [if_pos rfl] at hg
                  obtain rfl : getLocalPathFromUrl cfg u' b = p' := by injection hg
                  refine ⟨calculateHash body, ?_, ?_⟩
                  · dsimp only
                    rw [jsMapGet_jsMapSet, if_pos rfl]
                  · dsimp only
                    rw [jsMapGet_jsMapSet, if_pos rfl]
                · rw [if_neg hu'] at hg
                  obtain ⟨h', h1, h2⟩ := hInv u' p' hg
                  have hne : h' ≠ calculateHash body := by
                    intro hcontra
                    rw [hcontra, hh] at h2
                    cases h2
                  refine ⟨h', ?_, ?_⟩
                  · dsimp only
                    rw [jsMapGet_jsMapSet, if_neg hu']
                    exact h1
                  · dsimp only
                    rw [jsMapGet_jsMapSet, if_neg hne]
                    exact h2
        · have heq : (downloadImage cfg fetch s u b).2 =
              { s with
                fetchLog := s.fetchLog ++ [u]
                stats := { s.stats with total := s.stats.total + 1 } } := by
            simp only [downloadImage, hc, hp, hf]
            rw [if_pos hst]
          rw [heq]
          intro u' p' hg
          exact hInv u' p' hg

theorem registryInvariant_init : RegistryInvariant initDLState := by
  intro u p h
  simp [initDLState, jsMapGet] at h

theorem runDownloadSequence_registry (cfg : DLConfig) (baseUrl : String) :
    ∀ (calls : List (String × FetchOutcome)) (s : DLState),
      RegistryInvariant s →
      RegistryInvariant (runDownloadSequence cfg baseUrl calls s)
  | [], _, h => h
  | c :: rest, s, h =>
    runDownloadSequence_registry cfg baseUrl rest _
      (downloadImage_preserves_registry cfg (fun _ => c.2) s c.1 baseUrl h)

/-- C10: after any sequence of `downloadImage` calls in one job, every URL
present in `urlToPath` has a recorded hash, and `urlToPath.get(u)` equals
`hashToPath.get(urlToHash.get(u))` — a duplicate URL is mapped to the
original file's canonical path, never to a path derived from its own URL, so
no registry entry's path distinguishes a duplicate from the original. -/
theorem c10_urlToPath_points_at_canonical (cfg : DLConfig) (baseUrl : String)
    (calls : List (String × FetchOutcome)) (u p : String)
    (h : jsMapGet (runDownloadSequence cfg baseUrl calls initDLState).urlToPath u = some p) :
    ∃ hsh, jsMapGet (runDownloadSequence cfg baseUrl calls initDLState).urlToHash u = some hsh ∧
      jsMapGet (runDownloadSequence cfg baseUrl calls initDLState).hashToPath hsh = some p :=
  runDownloadSequence_registry cfg baseUrl calls initDLState registryInvariant_init u p h

/-- Witness for `c10_urlToPath_points_at_canonical`: the duplicate URL of the
`c4State` job resolves through its hash to the first URL's file. -/
theorem c10_urlToPath_points_at_canonical_witness :
    ∃ hsh, jsMapGet (runDownloadSequence dlTestConfig "https://a.example"
        [(c4Url1, FetchOutcome.response 200 none [7, 7, 7]),
         (c4Url2, FetchOutcome.response 200 none [7, 7, 7])]
        initDLState).urlToHash c4Url2 = some hsh ∧
      jsMapGet (runDownloadSequence dlTestConfig "https://a.example"
        [(c4Url1, FetchOutcome.response 200 none [7, 7, 7]),
         (c4Url2, FetchOutcome.response 200 none [7, 7, 7])]
        initDLState).hashToPath hsh = some "out/a.example/one.png" :=
  c10_urlToPath_points_at_canonical dlTestConfig "https://a.example"
    [(c4Url1, FetchOutcome.response 200 none [7, 7, 7]),
     (c4Url2, FetchOutcome.response 200 none [7, 7, 7])]
    c4Url2 "out/a.example/one.png" (by decide)

/-! ### C9 — the batch covers every unique referenced URL exactly once -/

/-- Every record `downloadImage` resolves with carries the requested URL. -/
theorem downloadImage_ok_url (cfg : DLConfig) (fetch : String → FetchOutcome)
    (s : DLState) (u b : String) (r : AssetRecord) (s' : DLState)
    (h : downloadImage cfg fetch s u b = (Except.ok r, s')) : r.url = u := by
  cases hc : jsMapGet s.urlToPath u with
  | some p =>
    rw [downloadImage_cached cfg fetch s u b p hc] at h
    injection h with h1 h2
    injection h1 with h3
    rw [← h3]
  | none =>
    cases hp : parseUrl u with
    | none =>
      have heq : (downloadImage cfg fetch s u b).1 = Except.error "Invalid URL" := by
        simp only [downloadImage, hc, hp]
      rw [h] at heq
      simp at heq
    | some parts =>
      cases hf : fetch u with
      | netError m =>
        have heq : (downloadImage cfg fetch s u b).1 = Except.error m := by
          simp only [downloadImage, hc, hp, hf]
        rw [h] at heq
        simp at heq
      | timedOut =>
        have heq : (downloadImage cfg fetch s u b).1 = Except.error "Download timeout" := by
          simp only [downloadImage, hc, hp, hf]
        rw [h] at heq
        simp at heq
      | response st cl body =>
        by_cases hst : st = 200
        · subst hst
          by_cases hcl : contentLengthTooLarge cl cfg.maxSize = true
          · have heq : (downloadImage cfg fetch s u b).1 =
                Except.error ("Image too large: " ++ toString (cl.getD 0) ++ " bytes") := by
              simp only [downloadImage, hc, hp, hf]
              rw [if_neg (by decide : ¬ ((200 : Nat) ≠ 200)), hcl, if_pos rfl]
            rw [h] at heq
            simp at heq
          · have hcl' : contentLengthTooLarge cl cfg.maxSize = false := by
              simpa using hcl
            by_cases hbl : body.length > cfg.maxSize
            · have heq : (downloadImage cfg fetch s u b).1 =
                  Except.error "Image size exceeded maximum" := by
                simp only [downloadImage, hc, hp, hf]
                rw [if_neg (by decide : ¬ ((200 : Nat) ≠ 200)), hcl']
                simp only [Bool.false_eq_true, if_false]
                rw [if_pos hbl]
              rw [h] at heq
              simp at heq
            · have hbody : body.length ≤ cfg.maxSize := by omega
              have hpsome : (parseUrl u).isSome = true := by rw [hp]; rfl
              have hadm := contentLengthAdmits_of_guard_false hcl'
              cases hh : jsMapGet s.hashToPath (calculateHash body) with
              | some ep =>
                rw [downloadImage_content_dup cfg fetch s u b ep cl body
                  hc hpsome hf hadm hbody hh] at h
                injection h with h1 h2
                injection h1 with h3
                rw [← h3]
              | none =>
                rw [downloadImage_fresh cfg fetch s u b cl body
                  hc hpsome hf hadm hbody hh] at h
                injection h with h1 h2
                injection h1 with h3
                rw [← h3]
        · have heq : (downloadImage cfg fetch s u b).1 =
              Except.error ("HTTP " ++ toString st) := by
            simp only [downloadImage, hc, hp, hf]
            rw [if_pos hst]
          rw [h] at heq
          simp at heq

/-- Counting URLs across the three result lists of the batch loop: each
processed URL contributes exactly one entry. -/
theorem runBatchLoop_count (cfg : DLConfig) (fetch : String → FetchOutcome)
    (b x : String) :
    ∀ (l : List String) (s : DLState) (succ : List AssetRecord)
      (fl : List (String × String)) (dup : List AssetRecord),
      ((runBatchLoop cfg fetch b l s succ fl dup).1.success.map AssetRecord.url ++
       (runBatchLoop cfg fetch b l s succ fl dup).1.duplicates.map AssetRecord.url ++
       (runBatchLoop cfg fetch b l s succ fl dup).1.failed.map Prod.fst).count x =
        (succ.map AssetRecord.url ++ dup.map AssetRecord.url ++
         fl.map Prod.fst).count x + l.count x
  | [], s, succ, fl, dup => by
    simp [runBatchLoop]
  | u :: rest, s, succ, fl, dup => by
    rcases hdl : downloadImage cfg fetch s u b with ⟨res, s'⟩
    cases res with
    | ok r =>
      have hurl : r.url = u := downloadImage_ok_url cfg fetch s u b r s' hdl
      cases hdup : r.duplicate with
      | true =>
        have hrec := runBatchLoop_count cfg fetch b x rest s' succ fl (dup ++ [r])
        simp only [runBatchLoop, hdl]
        rw [hdup, if_pos rfl, hrec]
        simp only [List.map_append, List.map_cons, List.map_nil, List.count_append,
          List.count_cons, List.count_nil, List.count_singleton', hurl]
        split_ifs <;> omega
      | false =>
        have hrec := runBatchLoop_count cfg fetch b x rest s' (succ ++ [r]) fl dup
        simp only [runBatchLoop, hdl]
        rw [hdup, if_neg (by simp), hrec]
        simp only [List.map_append, List.map_cons, List.map_nil, List.count_append,
          List.count_cons, List.count_nil, List.count_singleton', hurl]
        split_ifs <;> omega
    | error e =>
      have hrec := runBatchLoop_count cfg fetch b x rest s' succ (fl ++ [(u, e)]) dup
      simp only [runBatchLoop, hdl]
      rw [hrec]
      simp only [List.map_append, List.map_cons, List.map_nil, List.count_append,
        List.count_cons, List.count_nil, List.count_singleton']
      split_ifs <;> omega

theorem mem_insertUnique (acc : List String) (x y : String) :
    y ∈ insertUnique acc x ↔ y ∈ acc ∨ (y = x ∧ x ≠ "") := by
  unfold insertUnique
  split_ifs with h1 h2
  · simp [h1]
  · constructor
    · exact Or.inl
    · rintro (hy | ⟨rfl, -⟩)
      · exact hy
      · exact h2
  · simp [h1]

theorem nodup_insertUnique (acc : List String) (x : String) (h : acc.Nodup) :
    (insertUnique acc x).Nodup := by
  unfold insertUnique
  split_ifs with h1 h2
  · exact h
  · exact h
  · simp [List.nodup_append, h, h2]

theorem mem_foldl_insertUnique :
    ∀ (imgs : List PageImage) (acc : List String) (y : String),
      y ∈ imgs.foldl (fun a img => insertUnique a img.src) acc ↔
        y ∈ acc ∨ (y ≠ "" ∧ ∃ i ∈ imgs, i.src = y)
  | [], acc, y => by simp
  | img :: rest, acc, y => by
    rw [List.foldl_cons, mem_foldl_insertUnique rest, mem_insertUnique]
    constructor
    · rintro ((hy | ⟨rfl, hne⟩) | ⟨hne, i, hi, hiy⟩)
      · exact Or.inl hy
      · exact Or.inr ⟨hne, img, List.mem_cons_self _ _, rfl⟩
      · exact Or.inr ⟨hne, i, List.mem_cons_of_mem _ hi, hiy⟩
    · rintro (hy | ⟨hne, i, hi, hiy⟩)
      · exact Or.inl (Or.inl hy)
      · rcases List.mem_cons.mp hi with rfl | hi
        · exact Or.inl (Or.inr ⟨hiy.symm, hiy ▸ hne⟩)
        · exact Or.inr ⟨hne, i, hi, hiy⟩

theorem nodup_foldl_insertUnique :
    ∀ (imgs : List PageImage) (acc : List String), acc.Nodup →
      (imgs.foldl (fun a img => insertUnique a img.src) acc).Nodup
  | [], _, h => h
  | img :: rest, acc, h =>
    nodup_foldl_insertUnique rest _ (nodup_insertUnique acc img.src h)

theorem mem_collect_pages :
    ∀ (pages : List Page) (acc : List String) (y : String),
      y ∈ pages.foldl
          (fun acc page => page.images.foldl (fun a img => insertUnique a img.src) acc) acc ↔
        y ∈ acc ∨ (y ≠ "" ∧ ∃ pg ∈ pages, ∃ i ∈ pg.images, i.src = y)
  | [], acc, y => by simp
  | pg :: rest, acc, y => by
    rw [List.foldl_cons, mem_collect_pages rest, mem_foldl_insertUnique]
    constructor
    · rintro ((hy | ⟨hne, i, hi, hiy⟩) | ⟨hne, pg', hpg', i, hi, hiy⟩)
      · exact Or.inl hy
      · exact Or.inr ⟨hne, pg, List.mem_cons_self _ _, i, hi, hiy⟩
      · exact Or.inr ⟨hne, pg', List.mem_cons_of_mem _ hpg', i, hi, hiy⟩
    · rintro (hy | ⟨hne, pg', hpg', i, hi, hiy⟩)
      · exact Or.inl (Or.inl hy)
      · rcases List.mem_cons.mp hpg' with rfl | hpg'
        · exact Or.inl (Or.inr ⟨hne, i, hi, hiy⟩)
        · exact Or.inr ⟨hne, pg', hpg', i, hi, hiy⟩

theorem nodup_collect_pages :
    ∀ (pages : List Page) (acc : List String), acc.Nodup →
      (pages.foldl
        (fun acc page => page.images.foldl (fun a img => insertUnique a img.src) acc) acc).Nodup
  | [], _, h => h
  | pg :: rest, acc, h =>
    nodup_collect_pages rest _ (nodup_foldl_insertUnique pg.images acc h)

theorem mem_collectUniqueImageUrls (pages : List Page) (y : String) :
    y ∈ collectUniqueImageUrls pages ↔
      y ≠ "" ∧ ∃ pg ∈ pages, ∃ i ∈ pg.images, i.src = y := by
  rw [collectUniqueImageUrls, mem_collect_pages pages]
  simp

theorem nodup_collectUniqueImageUrls (pages : List Page) :
    (collectUniqueImageUrls pages).Nodup :=
  nodup_collect_pages pages [] List.nodup_nil

theorem count_of_nodup (l : List String) (h : l.Nodup) (x : String) :
    l.count x = if x ∈ l then 1 else 0 := by
  by_cases hx : x ∈ l
  · rw [if_pos hx]
    exact List.count_eq_one_of_mem h hx
  · rw [if_neg hx]
    exact List.count_eq_zero_of_not_mem hx

/-- C9: the batch first collapses the referenced image URLs to a duplicate-free
list, then attempts each exactly once in sequence; failures are recorded in
the `failed` list without aborting the loop, so across the `success`,
`duplicates` and `failed` lists of the returned `BatchResult`, every (non-empty)
referenced URL appears exactly once and nothing else appears. -/
theorem c9_batch_covers_each_unique_url (cfg : DLConfig) (fetch : String → FetchOutcome)
    (s : DLState) (pages : List Page) (b u : String) :
    ((downloadAllImages cfg fetch s pages b).1.success.map AssetRecord.url ++
     (downloadAllImages cfg fetch s pages b).1.duplicates.map AssetRecord.url ++
     (downloadAllImages cfg fetch s pages b).1.failed.map Prod.fst).count u =
      if u ≠ "" ∧ ∃ pg ∈ pages, ∃ i ∈ pg.images, i.src = u then 1 else 0 := by
  unfold downloadAllImages
  rw [runBatchLoop_count]
  rw [count_of_nodup _ (nodup_collectUniqueImageUrls pages)]
  simp only [List.map_nil, List.append_nil, List.count_nil, Nat.zero_add,
    mem_collectUniqueImageUrls]
